import Mathlib

/-!
# Verification of the auth0-sso-login session/token lifecycle manager

This file shallowly embeds the core of `src/auth0-sso-login.js` and the
token-expiry manager (`tokenExpiryManager`, second half of
`src/auth0ClientProvider.js`) in Lean 4, and proves/refutes the frozen
claims about the login/renewal orchestration state machine.

Modelling conventions:
* JavaScript values that may be `undefined` are modelled as `Option _`;
  `none` stands for `undefined` (or an absent field).
* JS string truthiness is modelled by `jsTruthy` (`undefined` and `""` are
  falsy, every other string is truthy).
* Promise outcomes are modelled as `Except e Unit`; `.error` is a rejected
  promise, `.ok` a resolved one.  `p.then(f)` is bind, `p.catch(h)` is the
  error-handler match.
* Timestamps and durations are exact rationals (`ℚ`); JS numbers are IEEE
  doubles, but every arithmetic fact proved here is exact at the scales
  involved.
* Side effects (timer arming/cancelling, hook invocations, network calls)
  are reified as explicit event lists so that ordering claims become
  statements about lists.
-/

/-- JS truthiness for an optional string: `undefined` and `""` are falsy. -/
def jsTruthy : Option String → Bool
  | none => false
  | some s => s != ""

/-- The `authResult` object returned by the identity provider
(`checkSession` callback / `parseHash`).  Fields that the embedded code
reads: `accessToken`, `idToken`, `error`, `expiresIn`. -/
structure AuthResult where
  accessToken : Option String := none
  idToken : Option String := none
  error : Option String := none
  expiresIn : ℚ := 0
deriving DecidableEq

/-- A rejection value flowing through `renewAuth`'s `.catch` handler: the
code reads `error.error` and `error.authResultError`
(`src/auth0-sso-login.js`, lines 588-603 of the current revision). -/
structure RenewError where
  error : Option String := none
  errorDescription : Option String := none
  authResultError : Option String := none
deriving DecidableEq

/-- Result of one `checkSession` network call: either the provider invoked
the callback with an error (`err`), or with a (possibly absent) auth
result. -/
inductive CheckSessionResult
  | err : RenewError → CheckSessionResult
  | ok : Option AuthResult → CheckSessionResult

/-- The error object constructed at line 585:
`{ error: 'no_token_available', errorDescription: 'Failed to get valid token.',
   authResultError: authResult ? authResult.error : undefined }`. -/
def noTokenError (ar : Option AuthResult) : RenewError :=
  { error := some "no_token_available",
    errorDescription := some "Failed to get valid token.",
    authResultError := match ar with | some a => a.error | none => none }

/-- The `checkSession` callback of `renewAuth` (lines 570-586): reject on a
provider error; succeed when the result carries truthy `accessToken` and
`idToken`; otherwise reject with the `no_token_available` error. -/
def checkSessionOutcome (r : CheckSessionResult) : Except RenewError AuthResult :=
  match r with
  | .err e => .error e
  | .ok (some a) =>
      if jsTruthy a.accessToken && jsTruthy a.idToken then .ok a
      else .error (noTokenError (some a))
  | .ok none => .error (noTokenError none)

/-- The `fatalErrors` lookup of `renewAuth` (lines 590-593):
`{ consent_required: true, login_required: true }[error.error]` is truthy
exactly for these two strings. -/
def fatalError (e : RenewError) : Bool :=
  e.error == some "consent_required" || e.error == some "login_required"

/-- Observable outcome of one `renewAuth(retries)` invocation: how many
`checkSession` network attempts were made, the backoff delays (ms) observed
before each retry, and the settled promise value. -/
structure RenewOutcome where
  attempts : Nat
  delays : List Nat
  result : Except RenewError Unit

/-- `renewAuth(retries)` (lines 560-604).  `attempt` is the environment:
the result the provider gives to the `n`-th `checkSession` call (indexed by
the `retries` value of the invocation that makes it).  The `.catch` handler
rethrows fatal errors; retries (after a fixed 1000 ms `setTimeout`) while
`retries < 4 && error.authResultError === undefined`; otherwise rethrows. -/
def renewAuth (attempt : Nat → CheckSessionResult) (retries : Nat) : RenewOutcome :=
  match checkSessionOutcome (attempt retries) with
  | .ok _ => { attempts := 1, delays := [], result := .ok () }
  | .error e =>
      if fatalError e then { attempts := 1, delays := [], result := .error e }
      else if h : retries < 4 ∧ e.authResultError = none then
        let rest := renewAuth attempt (retries + 1)
        { attempts := rest.attempts + 1, delays := 1000 :: rest.delays,
          result := rest.result }
      else { attempts := 1, delays := [], result := .error e }
termination_by 4 - retries
decreasing_by
  omega

/-- One retry step of `renewAuth`: a non-fatal error with undefined
`authResultError` below the retry cap leads to one more attempt after a
1000 ms delay. -/
lemma renewAuth_retry_step (attempt : Nat → CheckSessionResult) (retries : Nat)
    (e : RenewError) (ha : attempt retries = .err e) (hf : fatalError e = false)
    (hr : retries < 4) (hu : e.authResultError = none) :
    renewAuth attempt retries =
      { attempts := (renewAuth attempt (retries + 1)).attempts + 1,
        delays := 1000 :: (renewAuth attempt (retries + 1)).delays,
        result := (renewAuth attempt (retries + 1)).result } := by
  rw [renewAuth, ha]
  simp [checkSessionOutcome, hf, hr, hu]

/-- Terminal step of `renewAuth` at the retry cap: a non-fatal error at
`retries = 4` is rethrown with no further attempt. -/
lemma renewAuth_cap_step (attempt : Nat → CheckSessionResult)
    (e : RenewError) (ha : attempt 4 = .err e) (hf : fatalError e = false) :
    renewAuth attempt 4 = { attempts := 1, delays := [], result := .error e } := by
  rw [renewAuth, ha]
  simp [checkSessionOutcome, hf]

/-- C2 helper: an environment that always rejects with retryable errors. -/
def alwaysRetryable (errs : Nat → RenewError) : Prop :=
  ∀ n, fatalError (errs n) = false ∧ (errs n).authResultError = none

/-- C2: against a renewal environment that always rejects with a retryable
error (not `consent_required`/`login_required`, `authResultError`
undefined), `renewAuth` starting at `retries = 0` makes exactly 5 attempts
(1 + 4 retries), observes a fixed 1000 ms delay before each of the 4
retries, and rejects with the error of the last attempt. -/
theorem renewAuth_retryable_five_attempts (attempt : Nat → CheckSessionResult)
    (errs : Nat → RenewError) (ha : ∀ n, attempt n = .err (errs n))
    (hr : alwaysRetryable errs) :
    renewAuth attempt 0 =
      { attempts := 5, delays := [1000, 1000, 1000, 1000],
        result := .error (errs 4) } := by
  have h4 : renewAuth attempt 4 = { attempts := 1, delays := [], result := .error (errs 4) } :=
    renewAuth_cap_step attempt (errs 4) (ha 4) (hr 4).1
  have h3 := renewAuth_retry_step attempt 3 (errs 3) (ha 3) (hr 3).1 (by omega) (hr 3).2
  have h2 := renewAuth_retry_step attempt 2 (errs 2) (ha 2) (hr 2).1 (by omega) (hr 2).2
  have h1 := renewAuth_retry_step attempt 1 (errs 1) (ha 1) (hr 1).1 (by omega) (hr 1).2
  have h0 := renewAuth_retry_step attempt 0 (errs 0) (ha 0) (hr 0).1 (by omega) (hr 0).2
  rw [h0, h1, h2, h3, h4]

/-- A concrete retryable error: a transient network failure reported by the
provider (no `authResultError` field). -/
def transientErr : RenewError := { error := some "timeout" }

/-- Witness for C2 at the concrete environment that always rejects with
`transientErr`. -/
theorem renewAuth_retryable_five_attempts_witness :
    renewAuth (fun _ => .err transientErr) 0 =
      { attempts := 5, delays := [1000, 1000, 1000, 1000],
        result := .error transientErr } :=
  renewAuth_retryable_five_attempts (fun _ => .err transientErr) (fun _ => transientErr)
    (fun _ => rfl) (fun _ => by constructor <;> rfl)

/-- C3: if the first attempt rejects with a fatal error
(`login_required` or `consent_required`), `renewAuth` rejects with that
error after exactly 1 attempt — no retry and no backoff delay. -/
theorem renewAuth_fatal_one_attempt (attempt : Nat → CheckSessionResult)
    (e : RenewError) (ha : attempt 0 = .err e)
    (he : e.error = some "login_required" ∨ e.error = some "consent_required") :
    renewAuth attempt 0 = { attempts := 1, delays := [], result := .error e } := by
  have hf : fatalError e = true := by
    rcases he with h | h <;> simp [fatalError, h]
  rw [renewAuth, ha]
  simp [checkSessionOutcome, hf]

/-- Witness for C3 at a concrete environment rejecting with
`login_required` on the first call. -/
theorem renewAuth_fatal_one_attempt_witness :
    renewAuth (fun _ => .err { error := some "login_required" }) 0 =
      { attempts := 1, delays := [],
        result := .error { error := some "login_required" } } :=
  renewAuth_fatal_one_attempt (fun _ => .err { error := some "login_required" })
    { error := some "login_required" } rfl (Or.inl rfl)

/-- A provider response that reports success but carries no usable token
fields and no `error` field (e.g. the callback fires with an empty result
object). -/
def tokenlessSilent : AuthResult := {}

/-- The environment in which every `checkSession` call reports success with
a result object that has no token fields and no `error` field. -/
def tokenlessOracle : Nat → CheckSessionResult := fun _ => .ok (some tokenlessSilent)

/-- C4 counterexample: when the provider reports success without usable
token fields and without an `error` field, the constructed
`no_token_available` rejection has `authResultError === undefined`, so
`renewAuth` RETRIES it like a transient error: 5 attempts are made (not 1),
refuting the claim that such an error is terminal without retry. -/
theorem noToken_without_error_is_retried :
    renewAuth tokenlessOracle 0 =
      { attempts := 5, delays := [1000, 1000, 1000, 1000],
        result := .error (noTokenError (some tokenlessSilent)) } ∧
    (renewAuth tokenlessOracle 0).attempts ≠ 1 := by
  have hstep : ∀ n, checkSessionOutcome (tokenlessOracle n) =
      .error (noTokenError (some tokenlessSilent)) := by
    intro n
    simp [checkSessionOutcome, tokenlessOracle, tokenlessSilent, jsTruthy]
  have hf : fatalError (noTokenError (some tokenlessSilent)) = false := by
    simp [fatalError, noTokenError, tokenlessSilent]
  have hu : (noTokenError (some tokenlessSilent)).authResultError = none := by
    simp [noTokenError, tokenlessSilent]
  have h4 : renewAuth tokenlessOracle 4 =
      { attempts := 1, delays := [],
        result := .error (noTokenError (some tokenlessSilent)) } := by
    rw [renewAuth]
    simp only [hstep, hf]
    norm_num
  have hr : ∀ r, r < 4 →
      renewAuth tokenlessOracle r =
        { attempts := (renewAuth tokenlessOracle (r + 1)).attempts + 1,
          delays := 1000 :: (renewAuth tokenlessOracle (r + 1)).delays,
          result := (renewAuth tokenlessOracle (r + 1)).result } := by
    intro r hlt
    rw [renewAuth]
    simp only [hstep, hf]
    simp [hlt, hu]
  have heq : renewAuth tokenlessOracle 0 =
      { attempts := 5, delays := [1000, 1000, 1000, 1000],
        result := .error (noTokenError (some tokenlessSilent)) } := by
    rw [hr 0 (by omega), hr 1 (by omega), hr 2 (by omega), hr 3 (by omega), h4]
  exact ⟨heq, by rw [heq]; simp⟩

/-- C4 amended: the `no_token_available` rejection is terminal without
retry exactly when the tokenless provider response carries an `error`
field (captured as `authResultError`): then `renewAuth` rejects after a
single attempt with no backoff delay. -/
theorem noToken_with_error_is_terminal (attempt : Nat → CheckSessionResult)
    (a : AuthResult) (s : String) (ha : attempt 0 = .ok (some a))
    (htok : (jsTruthy a.accessToken && jsTruthy a.idToken) = false)
    (herr : a.error = some s) :
    renewAuth attempt 0 =
      { attempts := 1, delays := [], result := .error (noTokenError (some a)) } := by
  have hout : checkSessionOutcome (attempt 0) = .error (noTokenError (some a)) := by
    rw [ha]
    simp [checkSessionOutcome, htok]
  have hf : fatalError (noTokenError (some a)) = false := by
    simp [fatalError, noTokenError]
  have hu : (noTokenError (some a)).authResultError = some s := by
    simp [noTokenError, herr]
  rw [renewAuth, hout]
  simp [hf, hu]

/-- Witness for the amended C4: a tokenless success response whose `error`
field is `interaction_required` is rejected after exactly one attempt. -/
theorem noToken_with_error_is_terminal_witness :
    renewAuth (fun _ => .ok (some { error := some "interaction_required" })) 0 =
      { attempts := 1, delays := [],
        result := .error (noTokenError (some { error := some "interaction_required" })) } :=
  noToken_with_error_is_terminal
    (fun _ => .ok (some { error := some "interaction_required" }))
    { error := some "interaction_required" } "interaction_required" rfl rfl rfl

/-- Effects emitted toward the timer facility (`windowInteraction`):
`clearTimeout(handle)` and `setTimeout(fn, delayMs)`. -/
inductive TimerAction
  | clearTimer : Nat → TimerAction
  | setTimer : ℚ → TimerAction
deriving DecidableEq

/-- The fields of `tokenExpiryManager` (second half of
`src/auth0ClientProvider.js`): `tokenExpiresAt`, `tokenRefreshHandle`,
`sessionId`.  Timer handles are opaque naturals, `sessionId` an opaque
natural (a UUID in the source). -/
structure TokenExpiryState where
  tokenExpiresAt : Option ℚ := none
  tokenRefreshHandle : Option Nat := none
  sessionId : Option Nat := none
deriving DecidableEq

/-- `getRemainingMillisToTokenExpiry()` (lines 43-45):
`this.tokenExpiresAt ? this.tokenExpiresAt - Date.now() : 0`. -/
def getRemainingMillisToTokenExpiry (now : ℚ) (t : TokenExpiryState) : ℚ :=
  match t.tokenExpiresAt with
  | some e => e - now
  | none => 0

/-- `scheduleTokenRefresh(authResult, refreshFunction)` (lines 47-58):
`expiresInMs = authResult.expiresIn * 1000`;
`remainingMs = (expiresInMs / 3) * 2`;
`tokenExpiresAt = remainingMs + Date.now()`; clears a previously pending
timer before arming a new one with delay `remainingMs`.  `newHandle` is
the opaque handle the timer facility returns for the new timer. -/
def scheduleTokenRefresh (now : ℚ) (newHandle : Nat) (ar : AuthResult)
    (t : TokenExpiryState) : TokenExpiryState × List TimerAction :=
  let expiresInMs := ar.expiresIn * 1000
  let remainingMs := expiresInMs / 3 * 2
  let cancelActions : List TimerAction :=
    match t.tokenRefreshHandle with
    | some h => [.clearTimer h]
    | none => []
  ({ t with tokenExpiresAt := some (remainingMs + now),
            tokenRefreshHandle := some newHandle },
   cancelActions ++ [.setTimer remainingMs])

/-- `cancelTokenRefresh()` (lines 60-68): nulls `sessionId` and
`tokenExpiresAt`; clears the pending timer only if one exists. -/
def cancelTokenRefresh (t : TokenExpiryState) : TokenExpiryState × List TimerAction :=
  match t.tokenRefreshHandle with
  | some h => ({ tokenExpiresAt := none, tokenRefreshHandle := none, sessionId := none },
               [.clearTimer h])
  | none => ({ tokenExpiresAt := none, tokenRefreshHandle := none, sessionId := none }, [])

/-- C5 counterexample: with `expiresInSeconds = 15` and `now = 10000` the
manager records `tokenExpiresAt = 20000` — which is `now + (2/3) * 15000`,
NOT `now + expiresInSeconds * 1000 = 25000` as the claim's general formula
states. -/
theorem scheduleTokenRefresh_expiry_not_full_lifetime :
    (scheduleTokenRefresh 10000 1 { expiresIn := 15 } {}).1.tokenExpiresAt = some 20000 ∧
    (20000 : ℚ) ≠ 10000 + 15 * 1000 := by
  constructor
  · show some ((15 : ℚ) * 1000 / 3 * 2 + 10000) = some 20000
    norm_num
  · norm_num

/-- C5 amended: `scheduleTokenRefresh` records
`expiryInstant = now + expiresInSeconds * 1000 * (2/3)` (two thirds of the
token's lifetime from now), cancels any previously scheduled timer, and
arms a new timer whose delay equals `expiresInSeconds * 1000 * (2/3)`; at
`expiresInSeconds = 15`, `now = 10000` this records `20000` and arms the
timer at delay `10000` ms. -/
theorem scheduleTokenRefresh_spec (now : ℚ) (newHandle : Nat) (ar : AuthResult)
    (t : TokenExpiryState) :
    (scheduleTokenRefresh now newHandle ar t).1.tokenExpiresAt
        = some (now + ar.expiresIn * 1000 * (2 / 3)) ∧
    (scheduleTokenRefresh now newHandle ar t).1.tokenRefreshHandle = some newHandle ∧
    (scheduleTokenRefresh now newHandle ar t).1.sessionId = t.sessionId ∧
    (scheduleTokenRefresh now newHandle ar t).2 =
      (match t.tokenRefreshHandle with
        | some h => [TimerAction.clearTimer h]
        | none => []) ++ [TimerAction.setTimer (ar.expiresIn * 1000 * (2 / 3))] := by
  refine ⟨?_, rfl, rfl, ?_⟩
  · show some (ar.expiresIn * 1000 / 3 * 2 + now) = some (now + ar.expiresIn * 1000 * (2 / 3))
    congr 1
    ring
  · show (match t.tokenRefreshHandle with
        | some h => [TimerAction.clearTimer h]
        | none => []) ++ [TimerAction.setTimer (ar.expiresIn * 1000 / 3 * 2)] = _
    congr 2
    ring_nf

/-- Which optional hooks the constructor configuration provides. -/
structure HookConfig where
  hasProfileRefreshed : Bool := false
  hasTokenRefreshed : Bool := false
  hasRemoveLogin : Bool := false
  hasLogout : Bool := false
deriving DecidableEq

/-- Effects emitted by the auth-level operations: timer-facility calls,
hook invocations, and the logout navigation. -/
inductive AuthEffect
  | timer : TimerAction → AuthEffect
  | removeLoginHook
  | logoutHook
  | updateWindow
deriving DecidableEq

/-- The mutable fields of the `auth` class that the claims are about:
`this.authResult` and `this.tokenExpiryManager`'s state. -/
structure AuthState where
  authResult : Option AuthResult := none
  tem : TokenExpiryState := {}
deriving DecidableEq

/-- `removeLogin()` (lines 392-400): `cancelTokenRefresh()`, null the auth
result, then invoke the `removeLogin` hook when configured. -/
def removeLogin (cfg : HookConfig) (s : AuthState) : AuthState × List AuthEffect :=
  let c := cancelTokenRefresh s.tem
  ({ authResult := none, tem := c.1 },
   c.2.map .timer ++ (if cfg.hasRemoveLogin then [.removeLoginHook] else []))

/-- `logout(redirectUriOverride)` (lines 407-421): `cancelTokenRefresh()`,
null the auth result, invoke the `removeLogin` and `logout` hooks when
configured, then navigate the window to the provider's logout endpoint.
(`this.config` is always truthy: the constructor defaults it to `{}`.) -/
def logout (cfg : HookConfig) (s : AuthState) : AuthState × List AuthEffect :=
  let c := cancelTokenRefresh s.tem
  ({ authResult := none, tem := c.1 },
   c.2.map .timer ++ (if cfg.hasRemoveLogin then [.removeLoginHook] else [])
     ++ (if cfg.hasLogout then [.logoutHook] else []) ++ [.updateWindow])

/-- The state effect of the `checkSession` success continuation of
`renewAuth` (lines 574-583): store the auth result, run `refreshProfile`
(which does not touch these fields), then `tokenRefreshed(authResult)`
(lines 377-386), which stores the auth result again and calls
`scheduleTokenRefresh`.  The callback runs unconditionally: nothing in the
source compares generations or re-checks whether a logout happened while
the network call was in flight. -/
def renewSuccessCallback (now : ℚ) (newHandle : Nat) (ar : AuthResult)
    (s : AuthState) : AuthState :=
  let s1 : AuthState := { s with authResult := some ar }
  let sched := scheduleTokenRefresh now newHandle ar s1.tem
  { s1 with tem := sched.1 }

/-- C9: `removeLogin()` is idempotent on the observable state: a second
call leaves the state of the first call unchanged; after one call the
session credential is null, the recorded expiry is cleared and no refresh
timer is pending; `cancelTokenRefresh` is idempotent, and when nothing is
scheduled (as after a first cancel) it emits no timer actions at all. -/
theorem removeLogin_idempotent (cfg : HookConfig) (s : AuthState) :
    (removeLogin cfg (removeLogin cfg s).1).1 = (removeLogin cfg s).1 ∧
    (removeLogin cfg s).1.authResult = none ∧
    (removeLogin cfg s).1.tem.tokenExpiresAt = none ∧
    (removeLogin cfg s).1.tem.tokenRefreshHandle = none ∧
    (cancelTokenRefresh (cancelTokenRefresh s.tem).1).1 = (cancelTokenRefresh s.tem).1 ∧
    (cancelTokenRefresh (cancelTokenRefresh s.tem).1).2 = [] := by
  cases h : s.tem.tokenRefreshHandle <;>
    simp [removeLogin, cancelTokenRefresh, h]

/-- A session credential with usable token fields, as delivered by a
successful silent renewal. -/
def freshTokens : AuthResult :=
  { accessToken := some "fresh-access", idToken := some "fresh-id", expiresIn := 900 }

/-- A state with a live session: a stored credential, a recorded expiry
and a pending refresh timer. -/
def liveSession : AuthState :=
  { authResult := some { accessToken := some "old-access", idToken := some "old-id",
                         expiresIn := 900 },
    tem := { tokenExpiresAt := some 600000, tokenRefreshHandle := some 7,
             sessionId := some 1 } }

/-- C8 counterexample: `logout()` nulls the session state immediately, but
when the stale in-flight renewal later completes successfully, its
`checkSession` continuation overwrites the null state with the renewed
credential and re-arms a refresh timer — the session IS resurrected,
refuting the claim that the stale result does not overwrite the state. -/
theorem logout_then_stale_renewal_resurrects :
    (logout {} liveSession).1.authResult = none ∧
    (renewSuccessCallback 700000 8 freshTokens (logout {} liveSession).1).authResult
      = some freshTokens ∧
    some freshTokens ≠ (none : Option AuthResult) ∧
    (renewSuccessCallback 700000 8 freshTokens (logout {} liveSession).1).tem.tokenRefreshHandle
      = some 8 := by
  refine ⟨rfl, rfl, by simp, rfl⟩

/-- C8 amended: after `logout()` returns, the session state is null
immediately; but if the stale in-flight renewal later completes
successfully, its result DOES overwrite the null session state (and
re-arms the refresh timer): the source has no generation counter and its
`checkSession` continuation stores the result unconditionally. -/
theorem logout_then_stale_renewal_overwrites (cfg : HookConfig) (s : AuthState)
    (now : ℚ) (newHandle : Nat) (ar : AuthResult) :
    (logout cfg s).1.authResult = none ∧
    (renewSuccessCallback now newHandle ar (logout cfg s).1).authResult = some ar ∧
    (renewSuccessCallback now newHandle ar (logout cfg s).1).tem.tokenRefreshHandle
      = some newHandle := by
  exact ⟨rfl, rfl, rfl⟩

/-- Ordered side effects of the post-renewal synchronisation. -/
inductive LifecycleEvent
  | storeCredential
  | profileRefreshedHook
  | armTimer
  | tokenRefreshedHook
deriving DecidableEq

/-- Events of `refreshProfile()` (lines 319-330): when no
`profileRefreshed` hook is configured it resolves immediately; otherwise
it fetches the profile and, on success (`fetchOk`), invokes the hook
(fetch errors are logged and swallowed, so no hook event is emitted). -/
def refreshProfileEvents (hasProfileHook fetchOk : Bool) : List LifecycleEvent :=
  if hasProfileHook then (if fetchOk then [.profileRefreshedHook] else []) else []

/-- Events of `tokenRefreshed(authResult)` (lines 377-386): store the auth
result, call `tokenExpiryManager.scheduleTokenRefresh` (arming the next
refresh timer), and only THEN invoke the `tokenRefreshed` hook when
configured. -/
def tokenRefreshedEvents (hasTokenHook : Bool) : List LifecycleEvent :=
  .storeCredential :: .armTimer :: (if hasTokenHook then [.tokenRefreshedHook] else [])

/-- Events of the `checkSession` success continuation of `renewAuth`
(lines 574-583): `this.authResult = authResult`, then `refreshProfile()`,
then `tokenRefreshed(authResult)`.  (The `parseHash` success path of
`ensureLoggedIn`, lines 471-479, performs the same sequence.) -/
def renewSuccessEvents (hasProfileHook fetchOk hasTokenHook : Bool) : List LifecycleEvent :=
  .storeCredential :: (refreshProfileEvents hasProfileHook fetchOk
    ++ tokenRefreshedEvents hasTokenHook)

/-- C6 counterexample: with both hooks configured and a successful profile
fetch, the refresh timer is armed strictly BEFORE the `tokenRefreshed`
hook runs (`tokenRefreshed` calls `scheduleTokenRefresh` before invoking
the hook), refuting the claim that the timer is armed only after both
hooks have run. -/
theorem timer_armed_before_tokenRefreshed_hook :
    (renewSuccessEvents true true true).findIdx (· == LifecycleEvent.armTimer) <
      (renewSuccessEvents true true true).findIdx (· == LifecycleEvent.tokenRefreshedHook) ∧
    renewSuccessEvents true true true =
      [.storeCredential, .profileRefreshedHook, .storeCredential, .armTimer,
       .tokenRefreshedHook] := by
  decide

/-- C6 amended: on a successful renewal with both hooks configured, the
side effects happen in this order: the credential is stored first, then
the `profileRefreshed` hook runs, then (inside `tokenRefreshed`) the
credential is stored again and the next refresh timer is armed, and the
`tokenRefreshed` hook runs last — i.e. the timer is armed after the
`profileRefreshed` hook but before the `tokenRefreshed` hook. -/
theorem renewSuccess_event_order :
    (renewSuccessEvents true true true).findIdx (· == LifecycleEvent.storeCredential) = 0 ∧
    (renewSuccessEvents true true true).findIdx (· == LifecycleEvent.storeCredential) <
      (renewSuccessEvents true true true).findIdx (· == LifecycleEvent.profileRefreshedHook) ∧
    (renewSuccessEvents true true true).findIdx (· == LifecycleEvent.profileRefreshedHook) <
      (renewSuccessEvents true true true).findIdx (· == LifecycleEvent.armTimer) ∧
    (renewSuccessEvents true true true).findIdx (· == LifecycleEvent.armTimer) <
      (renewSuccessEvents true true true).findIdx (· == LifecycleEvent.tokenRefreshedHook) ∧
    (renewSuccessEvents false true false).findIdx (· == LifecycleEvent.storeCredential) = 0 := by
  decide

/-- The `authPromise` pipeline built by `ensureLoggedIn` (lines 485-502),
as a function of the settled outcomes of its constituents: the previous
retained sequence (`renewAuthSequencePromise`), the `renewAuth()` attempt,
and the `universalAuth(...)` fallback.  Returns the settled outcome of
`authPromise` together with whether the final `.catch` ran `removeLogin`.
`.then` skips its continuation on a rejected input; the first `.catch`
rethrows when the hosted login is disabled and otherwise falls back to
`universalAuth`; `clearOldNonces()` never throws; the last `.catch` runs
`removeLogin()` and rethrows. -/
def ensureLoggedInAuthPromise (prev : Except RenewError Unit)
    (renew : Except RenewError Unit) (enabledHostedLogin : Bool)
    (universal : Except RenewError Unit) : Except RenewError Unit × Bool :=
  let p1 : Except RenewError Unit := prev.bind fun _ => renew
  let p2 : Except RenewError Unit :=
    match p1 with
    | .ok u => .ok u
    | .error e => if enabledHostedLogin then universal else .error e
  let p3 : Except RenewError Unit := p2.bind fun _ => .ok ()
  match p3 with
  | .ok u => (.ok u, false)
  | .error e => (.error e, true)

/-- The value stored back into `this.renewAuthSequencePromise` (line 504):
`authPromise.catch(() => { ... })` — the catch handler swallows any
rejection and resolves with `undefined`. -/
def retainedSequence (prev : Except RenewError Unit)
    (renew : Except RenewError Unit) (enabledHostedLogin : Bool)
    (universal : Except RenewError Unit) : Except RenewError Unit :=
  match (ensureLoggedInAuthPromise prev renew enabledHostedLogin universal).1 with
  | .ok _ => .ok ()
  | .error _ => .ok ()

/-- C7: whatever the outcome of the previous sequence, of the renewal
attempt and of the interactive fallback — success or failure — the
retained `renewAuthSequencePromise` settles resolved, never rejected, and
a subsequent `ensureLoggedIn` call's continuation chained onto it runs
unconditionally. -/
theorem retainedSequence_never_rejected (prev renew : Except RenewError Unit)
    (enabledHostedLogin : Bool) (universal : Except RenewError Unit) :
    retainedSequence prev renew enabledHostedLogin universal = .ok () ∧
    ∀ next : Except RenewError Unit,
      (retainedSequence prev renew enabledHostedLogin universal).bind (fun _ => next)
        = next := by
  constructor
  · unfold retainedSequence
    split <;> rfl
  · intro next
    unfold retainedSequence
    split <;> rfl

/-- Network-level events of the serialized renewal sequences: a sequence
(one `ensureLoggedIn` slow-path invocation's renewal-or-login chain)
begins, makes `checkSession` calls, and ends.  The call index tags which
`ensureLoggedIn` invocation the event belongs to. -/
inductive NetEvent
  | seqBegin : Nat → NetEvent
  | checkSession : Nat → NetEvent
  | seqEnd : Nat → NetEvent
deriving DecidableEq

/-- The network trace of one call's renewal sequence: it performs exactly
one `checkSession` call per `renewAuth` attempt. -/
def sequenceTrace (c : Nat) (attempt : Nat → CheckSessionResult) : List NetEvent :=
  .seqBegin c :: (List.replicate (renewAuth attempt 0).attempts (.checkSession c)
    ++ [.seqEnd c])

/-- The global network trace of several `ensureLoggedIn` calls made while
no valid token is held.  `ensureLoggedIn` (lines 485-506) chains each new
call's renewal step onto the retained `renewAuthSequencePromise` —
`this.renewAuthSequencePromise.then(() => this.renewAuth()) ...` followed by
`this.renewAuthSequencePromise = authPromise.catch(() => {})` — so each
call's sequence starts only after the previous retained sequence settles:
promise chaining denotes sequential composition of the sequences.  Note
that each call still runs its own `renewAuth()` in its continuation;
nothing in the chained continuation re-checks token validity or shares the
previous call's result. -/
def serializedCallsTrace : Nat → List (Nat → CheckSessionResult) → List NetEvent
  | _, [] => []
  | c, o :: rest => sequenceTrace c o ++ serializedCallsTrace (c + 1) rest

/-- Monitor for the serialization invariant: at most one sequence active
at a time, and every `checkSession` call happens inside the single active
sequence.  The state is the number of active sequences (`none` once the
invariant has been violated). -/
def seqStep : Option Nat → NetEvent → Option Nat
  | some 0, .seqBegin _ => some 1
  | some 1, .checkSession _ => some 1
  | some 1, .seqEnd _ => some 0
  | _, _ => none

/-- A trace is well-serialized when the monitor accepts it from the idle
state. -/
def wellSerialized (t : List NetEvent) : Bool :=
  (t.foldl seqStep (some 0)).isSome

/-- Recognizer for `checkSession` network events. -/
def isCheckSession : NetEvent → Bool
  | .checkSession _ => true
  | _ => false

/-- Number of `checkSession` network calls in a trace. -/
def countCheckSessions (t : List NetEvent) : Nat := t.countP isCheckSession

/-- The monitor stays in the active state across any run of `checkSession`
events. -/
lemma foldl_seqStep_replicate (n c : Nat) :
    List.foldl seqStep (some 1) (List.replicate n (NetEvent.checkSession c)) = some 1 := by
  induction n with
  | zero => rfl
  | succ k ih => simpa [List.replicate_succ, seqStep] using ih

/-- The monitor accepts one full sequence, returning to the idle state. -/
lemma foldl_seqStep_sequenceTrace (c : Nat) (attempt : Nat → CheckSessionResult) :
    List.foldl seqStep (some 0) (sequenceTrace c attempt) = some 0 := by
  simp [sequenceTrace, seqStep, List.foldl_append, foldl_seqStep_replicate]

/-- The monitor accepts the whole serialized trace. -/
lemma foldl_seqStep_serializedCallsTrace (oracles : List (Nat → CheckSessionResult))
    (c : Nat) :
    List.foldl seqStep (some 0) (serializedCallsTrace c oracles) = some 0 := by
  induction oracles generalizing c with
  | nil => rfl
  | cons o rest ih =>
      simp [serializedCallsTrace, List.foldl_append, foldl_seqStep_sequenceTrace, ih]

/-- Each sequence contributes exactly its `renewAuth` attempt count of
`checkSession` calls. -/
lemma countCheckSessions_sequenceTrace (c : Nat) (attempt : Nat → CheckSessionResult) :
    countCheckSessions (sequenceTrace c attempt) = (renewAuth attempt 0).attempts := by
  simp [countCheckSessions, sequenceTrace, isCheckSession, List.countP_cons,
    List.countP_append, List.countP_replicate]

/-- The serialized trace's `checkSession` count is the sum of the per-call
attempt counts. -/
lemma countCheckSessions_serializedCallsTrace (oracles : List (Nat → CheckSessionResult))
    (c : Nat) :
    countCheckSessions (serializedCallsTrace c oracles) =
      (oracles.map fun o => (renewAuth o 0).attempts).sum := by
  induction oracles generalizing c with
  | nil => rfl
  | cons o rest ih =>
      simp [serializedCallsTrace, countCheckSessions, List.countP_append] at *
      simp [← countCheckSessions_sequenceTrace c o, countCheckSessions, ih]

/-- The environment in which every `checkSession` call immediately
succeeds with usable tokens. -/
def freshTokenOracle : Nat → CheckSessionResult := fun _ => .ok (some freshTokens)

/-- Against `freshTokenOracle`, `renewAuth` succeeds on its single first
attempt. -/
lemma renewAuth_freshTokenOracle :
    renewAuth freshTokenOracle 0 = { attempts := 1, delays := [], result := .ok () } := by
  rw [renewAuth]
  simp [freshTokenOracle, checkSessionOutcome, freshTokens, jsTruthy]

/-- C1 counterexample: two concurrent `ensureLoggedIn` calls made while no
valid token is held, each renewal succeeding immediately, produce TWO
`checkSession` network calls (one per call, serialized) — not exactly one
as the claim states: the chained continuation of the second call runs its
own `renewAuth()` after the first sequence settles. -/
theorem two_concurrent_calls_two_checkSessions :
    countCheckSessions (serializedCallsTrace 0 [freshTokenOracle, freshTokenOracle]) = 2 ∧
    countCheckSessions (serializedCallsTrace 0 [freshTokenOracle, freshTokenOracle]) ≠ 1 := by
  have h := countCheckSessions_serializedCallsTrace [freshTokenOracle, freshTokenOracle] 0
  simp [renewAuth_freshTokenOracle] at h
  exact ⟨h, by rw [h]; simp⟩

/-- C1 amended: the serialization half of the claim holds — for any number
of `ensureLoggedIn` calls chained while no valid token is held, at most
one silent-renewal-or-interactive-login sequence executes at a time and
every `checkSession` call happens inside the single active sequence — but
each concurrent call performs its own serialized silent renewal: the
number of `checkSession` network calls equals the SUM of the per-call
`renewAuth` attempt counts (two calls whose renewals succeed immediately
make two network calls, not one). -/
theorem serialized_renewal_sequences (oracles : List (Nat → CheckSessionResult)) :
    wellSerialized (serializedCallsTrace 0 oracles) = true ∧
    countCheckSessions (serializedCallsTrace 0 oracles) =
      (oracles.map fun o => (renewAuth o 0).attempts).sum := by
  refine ⟨?_, countCheckSessions_serializedCallsTrace oracles 0⟩
  simp [wellSerialized, foldl_seqStep_serializedCallsTrace]

/-- The decoded JWT payload as read by `getIdToken`: only the `exp` claim
matters, and it may be absent (`undefined > n` is `false` in JS, without
throwing). -/
structure JwtPayload where
  exp : Option Nat := none
deriving DecidableEq

/-- `getIdToken()` (lines 358-370).  `decode` models
`jwtManager.decode`: `none` stands both for a decode exception and for a
`null` return (in the latter case the source's `.exp` access throws a
`TypeError`); either way the `try/catch` logs and returns `null`, so the
two are observationally identical here.  `nowMs` is `Date.now()`.  The
function reads `this.authResult.accessToken` (not `.idToken`) and returns
it only when the decoded `exp` claim is strictly greater than
`Math.floor(Date.now() / 1000)`; the `catch` guarantees it never throws.
(The `createSession()` call made on the valid path only mutates the
manager's `sessionId` and never affects the returned value.) -/
def getIdToken (authResult : Option AuthResult)
    (decode : String → Option JwtPayload) (nowMs : Nat) : Option String :=
  match authResult with
  | none => none
  | some a =>
    match a.accessToken with
    | none => none
    | some tok =>
      if tok = "" then none
      else
        match decode tok with
        | none => none
        | some payload =>
          match payload.exp with
          | none => none
          | some e => if nowMs / 1000 < e then some tok else none

/-- C10: `getIdToken` returns a token exactly when the stored auth result
carries a (truthy) `accessToken` whose decoded JWT `exp` claim is strictly
greater than `floor(now / 1000)` — and the returned token is that
`accessToken` field; in every other case (no auth result, missing or empty
`accessToken`, decode failure, missing `exp`, expired token) it returns
`null`.  Totality of the definition reflects that the `try/catch` keeps
the operation from throwing. -/
theorem getIdToken_spec (authResult : Option AuthResult)
    (decode : String → Option JwtPayload) (nowMs : Nat) (tok : String) :
    getIdToken authResult decode nowMs = some tok ↔
      ∃ a, authResult = some a ∧ a.accessToken = some tok ∧ tok ≠ "" ∧
        ∃ p e, decode tok = some p ∧ p.exp = some e ∧ nowMs / 1000 < e := by
  constructor
  · intro h
    rcases authResult with _ | a
    · simp [getIdToken] at h
    rcases hacc : a.accessToken with _ | t
    · simp [getIdToken, hacc] at h
    by_cases hte : t = ""
    · simp [getIdToken, hacc, hte] at h
    rcases hdec : decode t with _ | p
    · simp [getIdToken, hacc, hte, hdec] at h
    rcases hexp : p.exp with _ | e
    · simp [getIdToken, hacc, hte, hdec, hexp] at h
    by_cases hlt : nowMs / 1000 < e
    · have htk : t = tok := by
        simpa [getIdToken, hacc, hte, hdec, hexp, hlt] using h
      subst htk
      exact ⟨a, rfl, hacc, hte, p, e, hdec, hexp, hlt⟩
    · simp [getIdToken, hacc, hte, hdec, hexp, hlt] at h
  · rintro ⟨a, rfl, hacc, hte, p, e, hdec, hexp, hlt⟩
    simp [getIdToken, hacc, hte, hdec, hexp, hlt]
